import Mathlib

/-!
Verification of the go-gitops-app request pipeline and stress endpoint.

The development shallowly embeds the Go sources:
  internal/handlers (StressHandler, HealthHandler, parseAndValidateStressRequest,
  formatValidationError, runMultiCoreStress, stressWorker),
  internal/middleware/logging.go (Logging, Recovery, responseWriter),
  pkg/response/response.go (SendJSON),
  pkg/metrics (TrackRequest, ObserveRequestDuration).

Machine integers are modelled as Int (Go int / int64 never overflow on the
inputs considered here).  Go time.Duration values are Int nanoseconds.
-/

namespace GitOps

/-- Outcome of reading one query parameter in the Go handler: the parameter is
absent from the query string, present and successfully parsed, or present but
failing to parse (time.ParseDuration or strconv.Atoi returned an error). -/
inductive ParamOutcome (α : Type) where
  | absent : ParamOutcome α
  | parsed (v : α) : ParamOutcome α
  | failed : ParamOutcome α
deriving DecidableEq

/-- The StressRequest struct of internal/handlers.  The validator tags are
min=1,max=30 on DurationSeconds and min=1 on Workers. -/
structure StressRequest where
  DurationSeconds : Int
  Workers : Int
deriving DecidableEq

/-- The ValidationError struct of internal/handlers: a field name and a
user-facing message; Error() returns the message. -/
structure ValidationError where
  Field : String
  Message : String
deriving DecidableEq

/-- int(d.Seconds()) for a Go time.Duration d held as Int nanoseconds.
Duration.Seconds computes sec + nsec/1e9 and the int conversion truncates
toward zero, which on the operating range of the handler is exactly the
truncating division of the nanosecond count by 1e9. -/
def goDurationSeconds (d : Int) : Int := Int.tdiv d 1000000000

/-- Lines 224-230 of parseAndValidateStressRequest: durationSeconds defaults to
int(defaultStressDuration.Seconds()) = 2; a present, parseable duration string
with value d replaces it by int(d.Seconds()); an absent or unparseable string
keeps the default. -/
def parsedDurationSeconds (durQ : ParamOutcome Int) : Int :=
  match durQ with
  | .parsed d => goDurationSeconds d
  | _ => 2

/-- Lines 232-238 of parseAndValidateStressRequest: workers defaults to
runtime.NumCPU(); a present value that strconv.Atoi accepts replaces it; an
absent or unparseable value keeps the default. -/
def parsedWorkers (numCPU : Int) (wQ : ParamOutcome Int) : Int :=
  match wQ with
  | .parsed w => w
  | _ => numCPU

/-- validate.Struct over the StressRequest tags, reporting the failed fields in
struct declaration order: DurationSeconds fails when outside 1..30 (min=1,
max=30), Workers fails when below 1 (min=1). -/
def validateStress (req : StressRequest) : List String :=
  (if req.DurationSeconds < 1 ∨ 30 < req.DurationSeconds then ["DurationSeconds"] else []) ++
    (if req.Workers < 1 then ["Workers"] else [])

/-- formatValidationError of internal/handlers: walk the validation errors and
return the user-facing error for the first recognised field; fall through to
the unknown-field error. -/
def formatValidationError : List String → Int → ValidationError
  | [], _ => ⟨"unknown", "validation failed"⟩
  | f :: rest, maxWorkers =>
    if f = "DurationSeconds" then
      ⟨"duration", "duration must be between 1s and 30s"⟩
    else if f = "Workers" then
      ⟨"workers", "workers must be between 1 and " ++ toString maxWorkers⟩
    else formatValidationError rest maxWorkers

/-- parseAndValidateStressRequest of internal/handlers: build the request from
the parsed query parameters, validate it against the struct tags, then apply
the post-validation bounds (duration capped at 30, workers capped at
maxWorkers = numCPU * 2) and return it; on validation failure return the
formatted error. -/
def parseAndValidateStressRequest (numCPU : Int) (durQ wQ : ParamOutcome Int) :
    Except ValidationError StressRequest :=
  match validateStress ⟨parsedDurationSeconds durQ, parsedWorkers numCPU wQ⟩ with
  | [] =>
    .ok ⟨if 30 < parsedDurationSeconds durQ then 30 else parsedDurationSeconds durQ,
      if numCPU * 2 < parsedWorkers numCPU wQ then numCPU * 2 else parsedWorkers numCPU wQ⟩
  | errs => .error (formatValidationError errs (numCPU * 2))

/-- Observable outcome of StressHandler: either the request is rejected with an
HTTP status and a ValidationError (SendJSON with StatusBadRequest, the stress
run never executed), or the stress run executes and the handler responds with
an HTTP status, the Workers field of the validated request (reported in the
StressResponse workers field) and the validated DurationSeconds that drives
runMultiCoreStress. -/
inductive StressResult where
  | rejected (status : Int) (e : ValidationError) : StressResult
  | executed (status : Int) (workers : Int) (durationSeconds : Int) : StressResult
deriving DecidableEq

/-- StressHandler of internal/handlers, restricted to its request/response
behaviour: on a validation error respond 400 with the error and return before
any stress work; otherwise run the stress test and respond 200 reporting the
validated worker count and duration. -/
def StressHandler (numCPU : Int) (durQ wQ : ParamOutcome Int) : StressResult :=
  match parseAndValidateStressRequest numCPU durQ wQ with
  | .error e => .rejected 400 e
  | .ok req => .executed 200 req.Workers req.DurationSeconds

/- Helper lemmas about the validation pipeline, shared by several claims. -/

lemma validateStress_pair (d w : Int) :
    validateStress ⟨d, w⟩ =
      (if d < 1 ∨ 30 < d then ["DurationSeconds"] else []) ++
        (if w < 1 then ["Workers"] else []) := rfl

lemma duration_invalid_rejected (numCPU : Int) (durQ wQ : ParamOutcome Int)
    (h : parsedDurationSeconds durQ < 1 ∨ 30 < parsedDurationSeconds durQ) :
    parseAndValidateStressRequest numCPU durQ wQ =
      .error ⟨"duration", "duration must be between 1s and 30s"⟩ := by
  unfold parseAndValidateStressRequest
  rw [validateStress_pair, if_pos h]
  by_cases hw : parsedWorkers numCPU wQ < 1
  · rw [if_pos hw]; rfl
  · rw [if_neg hw]; rfl

lemma workers_invalid_rejected (numCPU : Int) (durQ wQ : ParamOutcome Int)
    (hd1 : 1 ≤ parsedDurationSeconds durQ) (hd30 : parsedDurationSeconds durQ ≤ 30)
    (hw : parsedWorkers numCPU wQ < 1) :
    parseAndValidateStressRequest numCPU durQ wQ =
      .error ⟨"workers", "workers must be between 1 and " ++ toString (numCPU * 2)⟩ := by
  unfold parseAndValidateStressRequest
  rw [validateStress_pair, if_neg (by omega), if_pos hw]
  rfl

lemma valid_request_ok (numCPU : Int) (durQ wQ : ParamOutcome Int)
    (hd1 : 1 ≤ parsedDurationSeconds durQ) (hd30 : parsedDurationSeconds durQ ≤ 30)
    (hw : 1 ≤ parsedWorkers numCPU wQ) :
    parseAndValidateStressRequest numCPU durQ wQ =
      .ok ⟨parsedDurationSeconds durQ, min (parsedWorkers numCPU wQ) (numCPU * 2)⟩ := by
  unfold parseAndValidateStressRequest
  rw [validateStress_pair, if_neg (by omega), if_neg (by omega)]
  simp only [List.nil_append]
  rw [if_neg (by omega)]
  by_cases hc : numCPU * 2 < parsedWorkers numCPU wQ
  · rw [if_pos hc, min_eq_right hc.le]
  · rw [if_neg hc, min_eq_left (le_of_not_lt hc)]

/-- Claim C1, counterexample: a stress request with duration=45s (45e9 ns, so
45 truncated seconds) is not clamped; parseAndValidateStressRequest rejects it
through the max=30 validator tag, and StressHandler answers 400 with the
duration validation message, contradicting the claim that such requests are
never rejected. -/
theorem c1_counterexample :
    StressHandler 4 (.parsed 45000000000) .absent =
      .rejected 400 ⟨"duration", "duration must be between 1s and 30s"⟩ := by
  decide

/-- Claim C1, amended: for every stress request whose parsed duration truncates
to more than 30 seconds, parseAndValidateStressRequest rejects the request with
the duration validation error (the max=30 validator tag fires before the
post-validation clamp, which is unreachable for the duration field); the
request is answered 400, not clamped. -/
theorem c1_amended (numCPU d : Int) (wQ : ParamOutcome Int)
    (h : 30 < goDurationSeconds d) :
    parseAndValidateStressRequest numCPU (.parsed d) wQ =
      .error ⟨"duration", "duration must be between 1s and 30s"⟩ :=
  duration_invalid_rejected numCPU (.parsed d) wQ (Or.inr h)

/-- Claim C1, witness for the amended theorem at duration=45s on a 4-core
host with workers=100. -/
theorem c1_amended_witness :
    30 < goDurationSeconds 45000000000 ∧
      parseAndValidateStressRequest 4 (.parsed 45000000000) (.parsed 100) =
        .error ⟨"duration", "duration must be between 1s and 30s"⟩ :=
  ⟨by decide, c1_amended 4 45000000000 (.parsed 100) (by decide)⟩

/-- Claim C4: for every stress request with a parsed workers value above
numCPU * 2 (and an otherwise valid duration), the request is not rejected; the
worker count is clamped and the 200 response reports min w (numCPU * 2) in its
workers field, which here equals numCPU * 2. -/
theorem c4_workers_clamped (numCPU w : Int) (durQ : ParamOutcome Int)
    (hn : 1 ≤ numCPU)
    (hd1 : 1 ≤ parsedDurationSeconds durQ) (hd30 : parsedDurationSeconds durQ ≤ 30)
    (hw : numCPU * 2 < w) :
    StressHandler numCPU durQ (.parsed w) =
      .executed 200 (min w (numCPU * 2)) (parsedDurationSeconds durQ) ∧
      min w (numCPU * 2) = numCPU * 2 := by
  have hpw : parsedWorkers numCPU (.parsed w) = w := rfl
  refine ⟨?_, min_eq_right hw.le⟩
  unfold StressHandler
  rw [valid_request_ok numCPU durQ (.parsed w) hd1 hd30 (by rw [hpw]; omega)]
  rw [hpw]

/-- Claim C4, witness: duration absent (default 2) and workers=100 on a 4-core
host give a 200 response with the clamped count 8. -/
theorem c4_workers_clamped_witness :
    1 ≤ parsedDurationSeconds .absent ∧ parsedDurationSeconds .absent ≤ 30 ∧
      (4 : Int) * 2 < 100 ∧
      StressHandler 4 .absent (.parsed 100) = .executed 200 8 2 := by
  have h := c4_workers_clamped 4 100 .absent (by decide) (by decide) (by decide) (by decide)
  exact ⟨by decide, by decide, by decide, h.1.trans (by decide)⟩

/-- Claim C6: an unparseable duration falls back to the default of 2 seconds
silently and an unparseable workers value falls back to numCPU; a request with
unparseable duration is never answered with a duration validation error (it
either executes with duration 2 or fails on the workers field only), and with
both parameters unparseable it executes with the two defaults. -/
theorem c6_unparseable_defaults (numCPU : Int) (hn : 1 ≤ numCPU) :
    parsedDurationSeconds .failed = 2 ∧
    parsedWorkers numCPU .failed = numCPU ∧
    (∀ wQ : ParamOutcome Int,
      StressHandler numCPU .failed wQ =
          .executed 200 (min (parsedWorkers numCPU wQ) (numCPU * 2)) 2 ∨
        StressHandler numCPU .failed wQ =
          .rejected 400 ⟨"workers", "workers must be between 1 and " ++ toString (numCPU * 2)⟩) ∧
    StressHandler numCPU .failed .failed = .executed 200 numCPU 2 := by
  have hmain : ∀ wQ : ParamOutcome Int,
      StressHandler numCPU .failed wQ =
          .executed 200 (min (parsedWorkers numCPU wQ) (numCPU * 2)) 2 ∨
        StressHandler numCPU .failed wQ =
          .rejected 400 ⟨"workers", "workers must be between 1 and " ++ toString (numCPU * 2)⟩ := by
    intro wQ
    by_cases hw : 1 ≤ parsedWorkers numCPU wQ
    · left
      unfold StressHandler
      rw [valid_request_ok numCPU .failed wQ (by decide) (by decide) hw]
      rfl
    · right
      unfold StressHandler
      rw [workers_invalid_rejected numCPU .failed wQ (by decide) (by decide) (by omega)]
  refine ⟨rfl, rfl, hmain, ?_⟩
  rcases hmain .failed with h | h
  · rw [h]
    have hpw : parsedWorkers numCPU .failed = numCPU := rfl
    rw [hpw, min_eq_left (by omega)]
  · exfalso
    have hpw : parsedWorkers numCPU .failed = numCPU := rfl
    have := workers_invalid_rejected numCPU .failed .failed (by decide) (by decide)
    rw [StressHandler, valid_request_ok numCPU .failed .failed (by decide) (by decide)
      (by omega)] at h
    exact absurd h (by simp)

/-- Claim C6, witness on a 4-core host. -/
theorem c6_unparseable_defaults_witness :
    parsedDurationSeconds .failed = 2 ∧ parsedWorkers 4 .failed = 4 ∧
      StressHandler 4 .failed .failed = .executed 200 4 2 := by
  have h := c6_unparseable_defaults 4 (by decide)
  exact ⟨h.1, h.2.1, h.2.2.2⟩

/-- Claim C7: a stress request whose parsed workers value is zero or negative
(with a valid duration) is rejected before the stress run with a 400 whose
validation error carries field workers and exactly the message built from
numCPU * 2. -/
theorem c7_workers_nonpositive (numCPU w : Int) (durQ : ParamOutcome Int)
    (hd1 : 1 ≤ parsedDurationSeconds durQ) (hd30 : parsedDurationSeconds durQ ≤ 30)
    (hw : w ≤ 0) :
    StressHandler numCPU durQ (.parsed w) =
      .rejected 400 ⟨"workers", "workers must be between 1 and " ++ toString (numCPU * 2)⟩ := by
  have hpw : parsedWorkers numCPU (.parsed w) = w := rfl
  unfold StressHandler
  rw [workers_invalid_rejected numCPU durQ (.parsed w) hd1 hd30 (by rw [hpw]; omega)]

/-- Claim C7, witness: workers=0 on a 4-core host yields the exact message
with maximum 8. -/
theorem c7_workers_nonpositive_witness :
    1 ≤ parsedDurationSeconds .absent ∧ parsedDurationSeconds .absent ≤ 30 ∧
      (0 : Int) ≤ 0 ∧
      StressHandler 4 .absent (.parsed 0) =
        .rejected 400 ⟨"workers", "workers must be between 1 and 8"⟩ := by
  have h := c7_workers_nonpositive 4 0 .absent (by decide) (by decide) (by decide)
  exact ⟨by decide, by decide, by decide, h.trans (by decide)⟩

/-- Claim C9: a parsed duration is truncated toward zero to whole seconds
before validation, so 500ms truncates to 0 and is rejected with the duration
validation error even though it parsed, while 1500ms truncates to 1 and is
accepted. -/
theorem c9_truncation (numCPU w : Int) (hw1 : 1 ≤ w) (hw2 : w ≤ numCPU * 2) :
    (∀ d : Int, parsedDurationSeconds (.parsed d) = Int.tdiv d 1000000000) ∧
    StressHandler numCPU (.parsed 500000000) (.parsed w) =
      .rejected 400 ⟨"duration", "duration must be between 1s and 30s"⟩ ∧
    StressHandler numCPU (.parsed 1500000000) (.parsed w) = .executed 200 w 1 := by
  have hpw : parsedWorkers numCPU (.parsed w) = w := rfl
  refine ⟨fun d => rfl, ?_, ?_⟩
  · unfold StressHandler
    rw [duration_invalid_rejected numCPU (.parsed 500000000) (.parsed w)
      (Or.inl (by decide))]
  · unfold StressHandler
    rw [valid_request_ok numCPU (.parsed 1500000000) (.parsed w) (by decide) (by decide)
      (by rw [hpw]; omega)]
    rw [hpw, min_eq_left hw2]
    have ht : parsedDurationSeconds (.parsed 1500000000) = 1 := by decide
    rw [ht]

/-- Claim C9, witness on a 4-core host with workers=2. -/
theorem c9_truncation_witness :
    (1 : Int) ≤ 2 ∧ (2 : Int) ≤ 4 * 2 ∧
      parsedDurationSeconds (.parsed 500000000) = 0 ∧
      StressHandler 4 (.parsed 500000000) (.parsed 2) =
        .rejected 400 ⟨"duration", "duration must be between 1s and 30s"⟩ ∧
      StressHandler 4 (.parsed 1500000000) (.parsed 2) = .executed 200 2 1 := by
  have h := c9_truncation 4 2 (by decide) (by decide)
  exact ⟨by decide, by decide, by decide, h.2.1, h.2.2⟩

/-! ## Request pipeline model

A request run is recorded as the trace of externally visible actions the Go
code performs: header writes, status writes, body writes, Prometheus counter
increments, Prometheus duration observations, and structured log emissions. -/

/-- Log levels of pkg/logger (zerolog). -/
inductive Level where
  | debug : Level
  | info : Level
  | warn : Level
  | errorL : Level
deriving DecidableEq

/-- One externally visible action of a request run. -/
inductive Action where
  | setHeader (k v : String) : Action
  | writeHeader (code : Int) : Action
  | write (chunk : String) : Action
  | trackRequest (path method : String) : Action
  | observeDuration (path method : String) : Action
  | logEmit (lvl : Level) (fields : List (String × String)) (msg : String) : Action
deriving DecidableEq

/-- The fields of an http.Request consumed by the middleware chain. -/
structure Request where
  method : String
  path : String
  remoteAddr : String
  userAgent : String
deriving DecidableEq

/-- A run of an inner handler (or inner middleware chain): the actions it
performed, and some payload when it ended in a panic (the recorded actions are
those performed before the panic unwound). -/
structure HandlerRun where
  actions : List Action
  panicked : Option String
deriving DecidableEq

/-- The statusCode field of the middleware responseWriter wrapper after the
handler ran: initialized to 200 by newResponseWriter and overwritten by every
WriteHeader call that goes through the wrapper. -/
def trackedStatus (as : List Action) : Int :=
  as.foldl
    (fun s a =>
      match a with
      | .writeHeader c => c
      | _ => s)
    200

/-- Level selection of the Logging middleware: Warn on 4xx, Error on 5xx and
above, Info otherwise. -/
def logLevelFor (status : Int) : Level :=
  if 400 ≤ status ∧ status < 500 then .warn
  else if 500 ≤ status then .errorL
  else .info

/-- Structured fields of the request log event emitted by Logging. -/
def requestLogFields (r : Request) (status : Int) : List (String × String) :=
  [("method", r.method), ("path", r.path), ("status", toString status),
    ("remote_addr", r.remoteAddr), ("user_agent", r.userAgent)]

/-- The Logging middleware of internal/middleware/logging.go: wrap the writer,
run the inner handler, then observe the request duration and emit one request
log classified by the recorded status.  The post-processing is straight-line
code after next.ServeHTTP, not deferred, so a panic unwinding from the inner
handler skips it. -/
def Logging (r : Request) (h : HandlerRun) : HandlerRun :=
  match h.panicked with
  | some p => ⟨h.actions, some p⟩
  | none =>
    ⟨h.actions ++
        [.observeDuration r.path r.method,
          .logEmit (logLevelFor (trackedStatus h.actions))
            (requestLogFields r (trackedStatus h.actions)) "HTTP request completed"],
      none⟩

/-- The fixed JSON body written by the Recovery middleware. -/
def internalErrorBody : String :=
  "\x7b\"status\":\"error\",\"message\":\"Internal server error\"\x7d"

/-- Go http.Error: set the plain-text content type headers, write the status
code and print the message followed by a newline. -/
def httpError (msg : String) (code : Int) : List Action :=
  [.setHeader "Content-Type" "text/plain; charset=utf-8",
    .setHeader "X-Content-Type-Options" "nosniff",
    .writeHeader code,
    .write (msg ++ "\n")]

/-- The Recovery middleware of internal/middleware/logging.go: a deferred
recover around the inner chain; on a panic it emits one error-level log with
the panic payload, path and method, then calls http.Error with the fixed JSON
body and status 500; the panic is consumed, never re-raised. -/
def Recovery (r : Request) (h : HandlerRun) : HandlerRun :=
  match h.panicked with
  | none => h
  | some p =>
    ⟨h.actions ++
        (Action.logEmit .errorL [("panic", p), ("path", r.path), ("method", r.method)]
            "Recovered from panic") ::
          httpError internalErrorBody 500,
      none⟩

/-- The middleware chain installed by setupRouter: Recovery outermost, then
Logging, then the route handler. -/
def pipeline (r : Request) (h : HandlerRun) : HandlerRun :=
  Recovery r (Logging r h)

/-- The net/http response writer as the client observes it: header values
pending in the header map, the committed status code (none until the first
WriteHeader or body write), the header snapshot sent with the status, and the
accumulated body. -/
structure RW where
  pendingHeaders : List (String × String)
  committed : Option Int
  sentHeaders : List (String × String)
  body : List String
deriving DecidableEq

/-- The response writer before anything is written. -/
def rwInit : RW := ⟨[], none, [], []⟩

/-- Header map update: replace any previous value of the key. -/
def setHeaderList (hs : List (String × String)) (k v : String) :
    List (String × String) :=
  hs.filter (fun p => p.1 != k) ++ [(k, v)]

/-- net/http semantics of one action against the response writer: a header
write mutates the pending map only; the first WriteHeader commits the status
and the header snapshot; later WriteHeader calls are superfluous and ignored;
a body write commits status 200 if nothing is committed yet and always appends
to the body; telemetry actions do not touch the writer. -/
def rwStep (w : RW) (a : Action) : RW :=
  match a with
  | .setHeader k v => ⟨setHeaderList w.pendingHeaders k v, w.committed, w.sentHeaders, w.body⟩
  | .writeHeader c =>
    match w.committed with
    | none => ⟨w.pendingHeaders, some c, w.pendingHeaders, w.body⟩
    | some s => ⟨w.pendingHeaders, some s, w.sentHeaders, w.body⟩
  | .write chunk =>
    match w.committed with
    | none => ⟨w.pendingHeaders, some 200, w.pendingHeaders, w.body ++ [chunk]⟩
    | some s => ⟨w.pendingHeaders, some s, w.sentHeaders, w.body ++ [chunk]⟩
  | _ => w

/-- The client-visible response after a trace of actions. -/
def runRW (as : List Action) : RW := as.foldl rwStep rwInit

/-- Number of Prometheus duration observations in a trace. -/
def countObservations (as : List Action) : Nat :=
  (as.filter fun a =>
    match a with
    | .observeDuration _ _ => true
    | _ => false).length

/-- Number of request log emissions (the Logging middleware message) in a
trace. -/
def countRequestLogs (as : List Action) : Nat :=
  (as.filter fun a =>
    match a with
    | .logEmit _ _ msg => msg == "HTTP request completed"
    | _ => false).length

/-- Number of request counter increments for a given path in a trace. -/
def countTracked (path : String) (as : List Action) : Nat :=
  (as.filter fun a =>
    match a with
    | .trackRequest p _ => p == path
    | _ => false).length

/-- Number of log emissions at a given level in a trace. -/
def countLogsAt (lvl : Level) (as : List Action) : Nat :=
  (as.filter fun a =>
    match a with
    | .logEmit l _ _ => l == lvl
    | _ => false).length

/-- First value bound to a key in a structured field list. -/
def lookupField (k : String) : List (String × String) → Option String
  | [] => none
  | (k1, v) :: rest => if k1 == k then some v else lookupField k rest

/-- The status fields carried by the request log emissions of a trace. -/
def requestLogStatuses (as : List Action) : List String :=
  as.filterMap fun a =>
    match a with
    | .logEmit _ fs msg =>
      if msg == "HTTP request completed" then lookupField "status" fs else none
    | _ => none

/- Trace-counting helper lemmas shared by the pipeline claims. -/

lemma countObservations_append (as bs : List Action) :
    countObservations (as ++ bs) = countObservations as + countObservations bs := by
  simp [countObservations, List.filter_append]

lemma countRequestLogs_append (as bs : List Action) :
    countRequestLogs (as ++ bs) = countRequestLogs as + countRequestLogs bs := by
  simp [countRequestLogs, List.filter_append]

lemma countTracked_append (path : String) (as bs : List Action) :
    countTracked path (as ++ bs) = countTracked path as + countTracked path bs := by
  simp [countTracked, List.filter_append]

lemma countLogsAt_append (lvl : Level) (as bs : List Action) :
    countLogsAt lvl (as ++ bs) = countLogsAt lvl as + countLogsAt lvl bs := by
  simp [countLogsAt, List.filter_append]

lemma requestLogStatuses_append (as bs : List Action) :
    requestLogStatuses (as ++ bs) = requestLogStatuses as ++ requestLogStatuses bs := by
  simp [requestLogStatuses, List.filterMap_append]

lemma requestLogStatuses_eq_nil (as : List Action) (h : countRequestLogs as = 0) :
    requestLogStatuses as = [] := by
  rw [countRequestLogs, List.length_eq_zero, List.filter_eq_nil_iff] at h
  rw [requestLogStatuses, List.filterMap_eq_nil_iff]
  intro a ha
  have hna := h a ha
  cases a with
  | logEmit l fs msg =>
    simp only at hna ⊢
    simp only [Bool.not_eq_true] at hna
    rw [hna]
    rfl
  | setHeader k v => rfl
  | writeHeader c => rfl
  | write chunk => rfl
  | trackRequest p m => rfl
  | observeDuration p m => rfl

/-- Claim C2, counterexample: a handler that panics before doing anything goes
through the pipeline without any duration observation or request log emission
(the Logging post-processing is not deferred, so the panic skips it and only
Recovery runs), and a handler that writes status 201 and then 404 is logged
with status 404, the last status write, not the first.  Both contradict the
claim. -/
theorem c2_counterexample :
    countObservations
        (pipeline ⟨"GET", "/stress", "127.0.0.1:40000", "k6/0.49"⟩ ⟨[], some "boom"⟩).actions
        = 0 ∧
      countRequestLogs
        (pipeline ⟨"GET", "/stress", "127.0.0.1:40000", "k6/0.49"⟩ ⟨[], some "boom"⟩).actions
        = 0 ∧
      requestLogStatuses
        (pipeline ⟨"GET", "/", "127.0.0.1:40000", "curl/8.5"⟩
          ⟨[.writeHeader 201, .writeHeader 404], none⟩).actions = ["404"] := by
  decide

/-- Claim C2, amended: for every request whose handler completes without a
panic (and which, like every handler in the repository, performs no duration
observation or request log emission of its own), the pipeline produces exactly
one duration observation and one request log emission, and the logged status
is the last status code written by the handler, or 200 if the handler wrote
none; when the handler panics, the observation and the request log are both
skipped. -/
theorem c2_amended (r : Request) (h : HandlerRun)
    (hobs : countObservations h.actions = 0)
    (hlog : countRequestLogs h.actions = 0) :
    (h.panicked = none →
      countObservations (pipeline r h).actions = 1 ∧
      countRequestLogs (pipeline r h).actions = 1 ∧
      requestLogStatuses (pipeline r h).actions = [toString (trackedStatus h.actions)]) ∧
    (∀ p, h.panicked = some p →
      countObservations (pipeline r h).actions = 0 ∧
      countRequestLogs (pipeline r h).actions = 0) := by
  obtain ⟨as, pk⟩ := h
  simp only at hobs hlog
  cases pk with
  | none =>
    refine ⟨fun _ => ?_, fun p hp => by simp at hp⟩
    have hp : pipeline r ⟨as, none⟩ =
        ⟨as ++
          [.observeDuration r.path r.method,
            .logEmit (logLevelFor (trackedStatus as)) (requestLogFields r (trackedStatus as))
              "HTTP request completed"], none⟩ := rfl
    rw [hp]
    refine ⟨?_, ?_, ?_⟩
    · simp only [countObservations_append, hobs]
      simp [countObservations]
    · simp only [countRequestLogs_append, hlog]
      simp [countRequestLogs]
    · simp only [requestLogStatuses_append, requestLogStatuses_eq_nil as hlog]
      simp [requestLogStatuses, requestLogFields, lookupField]
  | some p0 =>
    refine ⟨fun hn => by simp at hn, fun p hp => ?_⟩
    have hpipe : pipeline r ⟨as, some p0⟩ =
        ⟨as ++
          (Action.logEmit .errorL [("panic", p0), ("path", r.path), ("method", r.method)]
              "Recovered from panic") ::
            httpError internalErrorBody 500, none⟩ := rfl
    rw [hpipe]
    constructor
    · simp only [countObservations_append, hobs]
      simp [countObservations, httpError]
    · simp only [countRequestLogs_append, hlog]
      simp [countRequestLogs, httpError]

/-- Claim C2, witness for the amended theorem: a handler writing status 404
with a body is observed once and logged once with status 404. -/
theorem c2_amended_witness :
    countObservations
        (pipeline ⟨"GET", "/missing", "127.0.0.1:50123", "curl/8.5"⟩
          ⟨[.writeHeader 404, .write "nope"], none⟩).actions = 1 ∧
      countRequestLogs
        (pipeline ⟨"GET", "/missing", "127.0.0.1:50123", "curl/8.5"⟩
          ⟨[.writeHeader 404, .write "nope"], none⟩).actions = 1 ∧
      requestLogStatuses
        (pipeline ⟨"GET", "/missing", "127.0.0.1:50123", "curl/8.5"⟩
          ⟨[.writeHeader 404, .write "nope"], none⟩).actions = ["404"] := by
  have h :=
    (c2_amended ⟨"GET", "/missing", "127.0.0.1:50123", "curl/8.5"⟩
      ⟨[.writeHeader 404, .write "nope"], none⟩ (by decide) (by decide)).1 rfl
  refine ⟨h.1, h.2.1, ?_⟩
  rw [h.2.2]
  decide

/- Response-writer helper lemmas shared by the recovery and encoding claims. -/

lemma runRW_append (as bs : List Action) :
    runRW (as ++ bs) = List.foldl rwStep (runRW as) bs := by
  simp [runRW, List.foldl_append]

lemma foldl_uncommitted (as : List Action) :
    ∀ w : RW, (w.committed = none → w.body = []) →
      (List.foldl rwStep w as).committed = none → (List.foldl rwStep w as).body = [] := by
  induction as with
  | nil => intro w hw; exact hw
  | cons a rest ih =>
    intro w hw
    rw [List.foldl_cons]
    apply ih
    intro hc
    cases a with
    | setHeader k v =>
      simp only [rwStep] at hc ⊢
      exact hw hc
    | writeHeader c =>
      exfalso
      rcases hcm : w.committed with _ | s <;> simp [rwStep, hcm] at hc
    | write chunk =>
      exfalso
      rcases hcm : w.committed with _ | s <;> simp [rwStep, hcm] at hc
    | trackRequest p m => exact hw hc
    | observeDuration p m => exact hw hc
    | logEmit l fs m => exact hw hc

lemma runRW_uncommitted_body (as : List Action) (h : (runRW as).committed = none) :
    (runRW as).body = [] :=
  foldl_uncommitted as rwInit (fun _ => rfl) h

lemma foldl_httpError (msg : String) (code : Int) (w : RW)
    (hcw : w.committed = none) (hbw : w.body = []) :
    (List.foldl rwStep w (httpError msg code)).committed = some code ∧
    (List.foldl rwStep w (httpError msg code)).body = [msg ++ "\n"] := by
  obtain ⟨ph, cm, sh, bd⟩ := w
  simp only at hcw hbw
  subst hcw
  subst hbw
  simp [httpError, rwStep]

lemma runRW_append_logEmit (as : List Action) (l : Level)
    (fs : List (String × String)) (m : String) :
    runRW (as ++ [.logEmit l fs m]) = runRW as := by
  rw [runRW_append]
  rfl

/-- Claim C3: on any panic raised by the inner chain, the pipeline intercepts
it (the resulting run is not panicked, so the process keeps serving), appends
exactly the Recovery actions: one error-level log carrying the panic payload,
path and method, followed by the http.Error write of the fixed JSON body with
status 500; and if the handler had not written a response yet, the client sees
status 500 with exactly the fixed JSON body. -/
theorem c3_recovery (r : Request) (h : HandlerRun) (p : String)
    (hp : h.panicked = some p) :
    (pipeline r h).panicked = none ∧
    (pipeline r h).actions =
      h.actions ++
        (Action.logEmit .errorL [("panic", p), ("path", r.path), ("method", r.method)]
            "Recovered from panic") ::
          httpError internalErrorBody 500 ∧
    ((runRW h.actions).committed = none →
      (runRW (pipeline r h).actions).committed = some 500 ∧
      (runRW (pipeline r h).actions).body = [internalErrorBody ++ "\n"]) := by
  obtain ⟨as, pk⟩ := h
  simp only at hp
  subst hp
  refine ⟨rfl, rfl, fun hc => ?_⟩
  simp only at hc
  have hpipe : (pipeline r ⟨as, some p⟩).actions =
      (as ++
        [Action.logEmit .errorL [("panic", p), ("path", r.path), ("method", r.method)]
          "Recovered from panic"]) ++
        httpError internalErrorBody 500 := by
    simp [pipeline, Logging, Recovery]
  rw [hpipe, runRW_append]
  apply foldl_httpError
  · rw [runRW_append_logEmit]
    exact hc
  · rw [runRW_append_logEmit]
    exact runRW_uncommitted_body as hc

/-- Claim C3, witness: a bare panicking handler yields a pipeline run that is
not panicked and a client-visible 500 with the fixed JSON body. -/
theorem c3_recovery_witness :
    (pipeline ⟨"GET", "/stress", "10.1.2.3:55555", "k6/0.49"⟩ ⟨[], some "boom"⟩).panicked
        = none ∧
      (runRW (pipeline ⟨"GET", "/stress", "10.1.2.3:55555", "k6/0.49"⟩
        ⟨[], some "boom"⟩).actions).committed = some 500 ∧
      (runRW (pipeline ⟨"GET", "/stress", "10.1.2.3:55555", "k6/0.49"⟩
        ⟨[], some "boom"⟩).actions).body = [internalErrorBody ++ "\n"] := by
  have h := c3_recovery ⟨"GET", "/stress", "10.1.2.3:55555", "k6/0.49"⟩ ⟨[], some "boom"⟩
    "boom" rfl
  exact ⟨h.1, (h.2.2 rfl).1, (h.2.2 rfl).2⟩

/-- HealthHandler of internal/handlers: one debug-level log, then a 200 status
and the plain-text body OK; it never calls metrics.TrackRequest and never logs
at info level itself. -/
def HealthHandler (r : Request) : HandlerRun :=
  ⟨[.logEmit .debug [("path", r.path)] "Health check requested",
    .writeHeader 200, .write "OK"], none⟩

/-- Claim C8, counterexample: processing a GET /health request through the
pipeline does produce an info-level log emission, namely the request log of
the Logging middleware (which setupRouter applies to every route, /health
included), contradicting the claim that none is produced. -/
theorem c8_counterexample :
    countLogsAt .info
        (pipeline ⟨"GET", "/health", "10.0.0.1:53412", "kube-probe/1.29"⟩
          (HealthHandler ⟨"GET", "/health", "10.0.0.1:53412", "kube-probe/1.29"⟩)).actions
        = 1 ∧
      countLogsAt .info
        (pipeline ⟨"GET", "/health", "10.0.0.1:53412", "kube-probe/1.29"⟩
          (HealthHandler ⟨"GET", "/health", "10.0.0.1:53412", "kube-probe/1.29"⟩)).actions
        ≠ 0 := by
  decide

/-- Claim C8, amended: processing a GET /health request never increments the
tracked-request counter for that path, and the handler itself emits no
info-level log; the only info-level emission of the whole pipeline run is the
single request log of the Logging middleware. -/
theorem c8_amended (ra ua : String) :
    countTracked "/health"
        (pipeline ⟨"GET", "/health", ra, ua⟩
          (HealthHandler ⟨"GET", "/health", ra, ua⟩)).actions = 0 ∧
      countLogsAt .info (HealthHandler ⟨"GET", "/health", ra, ua⟩).actions = 0 ∧
      countLogsAt .info
        (pipeline ⟨"GET", "/health", ra, ua⟩
          (HealthHandler ⟨"GET", "/health", ra, ua⟩)).actions = 1 := by
  refine ⟨?_, ?_, ?_⟩ <;>
    simp [pipeline, Logging, Recovery, HealthHandler, countTracked, countLogsAt,
      trackedStatus, logLevelFor, requestLogFields]

/-- SendJSON of pkg/response: set the JSON content type, write the status
code, then encode the payload onto the writer; the encoding outcome is the
enc argument (the encoded bytes, or none when json encoding fails, in which
case http.Error is called with the fixed fallback body and status 500). -/
def encodeFailBody : String :=
  "\x7b\"status\":\"error\",\"message\":\"Failed to encode response\"\x7d"

/-- The action trace of one SendJSON call. -/
def SendJSON (statusCode : Int) (enc : Option String) : List Action :=
  .setHeader "Content-Type" "application/json" :: .writeHeader statusCode ::
    (match enc with
      | some s => [.write s]
      | none => httpError encodeFailBody 500)

/-- Claim C10: SendJSON sets the JSON content type and commits the status code
before encoding, so the client always sees the original status code with the
application/json content type; on encoding success the body is the encoded
payload, and on encoding failure the fallback http.Error write cannot replace
the committed status: the client still sees the original status code with the
fixed error body appended. -/
theorem c10_sendjson (statusCode : Int) (enc : Option String) :
    (runRW (SendJSON statusCode enc)).committed = some statusCode ∧
    lookupField "Content-Type" (runRW (SendJSON statusCode enc)).sentHeaders =
      some "application/json" ∧
    (∀ s, enc = some s → (runRW (SendJSON statusCode enc)).body = [s]) ∧
    (enc = none → (runRW (SendJSON statusCode enc)).body = [encodeFailBody ++ "\n"]) := by
  cases enc with
  | some s =>
    refine ⟨rfl, ?_, ?_, by simp⟩
    · simp [SendJSON, runRW, rwStep, setHeaderList, lookupField]
    · intro s1 hs1
      simp only [Option.some.injEq] at hs1
      subst hs1
      rfl
  | none =>
    refine ⟨rfl, ?_, by simp, fun _ => rfl⟩
    simp [SendJSON, runRW, rwStep, setHeaderList, httpError, lookupField]

/-- Claim C10, witness: a 200 response whose payload fails to encode still
reaches the client with status 200, the JSON content type, and the fixed
fallback body. -/
theorem c10_sendjson_witness :
    (runRW (SendJSON 200 none)).committed = some 200 ∧
      lookupField "Content-Type" (runRW (SendJSON 200 none)).sentHeaders =
        some "application/json" ∧
      (runRW (SendJSON 200 none)).body = [encodeFailBody ++ "\n"] := by
  have h := c10_sendjson 200 none
  exact ⟨h.1, h.2.1, h.2.2.2 rfl⟩

/-! ## Load generator model

runMultiCoreStress and stressWorker of internal/handlers.  Each worker
measures its own elapsed time through its own sequence of time.Since readings
of a monotonic clock: the k-th entry of the sequence is the nanosecond value
returned by the k-th time.Since call of that worker.  The loop of stressWorker
checks a fresh reading before every iteration of the math work and exits at
the first reading that reached the target duration; the elapsed value the
worker reports is the reading taken after the loop.  runMultiCoreStress
launches one stressWorker per index below workers (for i := range workers,
wg.Add(1), go stressWorker) and blocks on wg.Wait() until every worker has
finished; its result collects the outcome of every worker, and each outcome
is a function of that worker index and its own clock only (no shared deadline
and no shared mutable state). -/

/-- Index of the first time.Since reading of a worker that reached the target
duration d: the loop condition of stressWorker fails there and the loop
exits. -/
def exitIndex (d : Int) (since : Nat → Int) (h : ∃ k, d ≤ since k) : Nat :=
  Nat.find h

/-- stressWorker of internal/handlers: spin on the math work until the own
elapsed reading reaches d, then report the elapsed reading taken after the
loop. -/
def stressWorker (d : Int) (since : Nat → Int) (h : ∃ k, d ≤ since k) : Int :=
  since (exitIndex d since h + 1)

/-- runMultiCoreStress of internal/handlers: launch one stressWorker per index
below workers, each on its own clock, and join all of them before returning;
the list collects the elapsed value of every worker. -/
def runMultiCoreStress (d : Int) (workers : Nat) (since : Nat → Nat → Int)
    (h : ∀ i, ∃ k, d ≤ since i k) : List Int :=
  (List.range workers).map fun i => stressWorker d (since i) (h i)

/-- Claim C5: for every duration and worker count, the generator launches
exactly workers units; the joined result contains the outcome of every worker
index, each outcome depending only on that worker and its own clock; every
worker runs until its own monotonic elapsed reading reaches the duration, so
each reported elapsed value is at least the duration; and each worker kept
looping strictly below the duration before its exit reading (the loop exits at
the first reading that reached it). -/
theorem c5_generator (d : Int) (workers : Nat) (since : Nat → Nat → Int)
    (h : ∀ i, ∃ k, d ≤ since i k) (hmono : ∀ i, Monotone (since i)) :
    (runMultiCoreStress d workers since h).length = workers ∧
    (∀ i, i < workers →
      stressWorker d (since i) (h i) ∈ runMultiCoreStress d workers since h) ∧
    (∀ e ∈ runMultiCoreStress d workers since h, d ≤ e) ∧
    (∀ i j, j < exitIndex d (since i) (h i) → since i j < d) := by
  refine ⟨?_, ?_, ?_, ?_⟩
  · simp [runMultiCoreStress]
  · intro i hi
    exact List.mem_map_of_mem _ (List.mem_range.mpr hi)
  · intro e he
    simp only [runMultiCoreStress, List.mem_map, List.mem_range] at he
    obtain ⟨i, _, rfl⟩ := he
    have h1 : d ≤ since i (exitIndex d (since i) (h i)) := Nat.find_spec (h i)
    exact h1.trans (hmono i (Nat.le_succ (exitIndex d (since i) (h i))))
  · intro i j hj
    exact lt_of_not_le (Nat.find_min (h i) hj)

/-- A concrete per-worker clock whose k-th reading is k nanoseconds. -/
def tickClock : Nat → Nat → Int := fun _ k => (k : Int)

lemma tickClock_reaches (i : Nat) : ∃ k, (3 : Int) ≤ tickClock i k :=
  ⟨3, by norm_num [tickClock]⟩

lemma tickClock_mono (i : Nat) : Monotone (tickClock i) := by
  intro a b hab
  simpa [tickClock] using Int.ofNat_le.mpr hab

/-- Claim C5, witness: with duration 3 and two workers on the tick clock, the
generator joins exactly two workers and every reported elapsed value reached
the duration. -/
theorem c5_generator_witness :
    (runMultiCoreStress 3 2 tickClock tickClock_reaches).length = 2 ∧
      stressWorker 3 (tickClock 0) (tickClock_reaches 0) ∈
        runMultiCoreStress 3 2 tickClock tickClock_reaches ∧
      ∀ e ∈ runMultiCoreStress 3 2 tickClock tickClock_reaches, (3 : Int) ≤ e := by
  have h := c5_generator 3 2 tickClock tickClock_reaches tickClock_mono
  exact ⟨h.1, h.2.1 0 (by norm_num), h.2.2.1⟩

end GitOps
